import Mathlib

/-
Verification of the Simulation Turn Orchestrator of the dream-deeply
repository.  The definitions below are a shallow embedding of the
TypeScript sources:

  * src/services/geminiService.ts (the revision with `withTimeout`,
    `generateSceneConfiguration`, and the `style` parameter on
    `generateSimulationImage`) — the external-contract adapters;
  * src/components/SimulationView.tsx — the session orchestrator
    (`startSimulation`, `handleAction`, `triggerImageGeneration`,
    `handleVisualChoice`, and the auto-save effect).

External calls (the Gemini client, `JSON.parse` on the wire text, the
regex markdown-fence cleanup, `Date.now`) are modelled by making their
outcome an explicit input of each embedded function: an upstream call
either fails (rejection or timeout — `withTimeout` turns a timeout into
an ordinary rejection), resolves with an empty text, resolves with text
that `JSON.parse` rejects, or resolves with a parsed value.  Numbers in
scene data are modelled as rationals (they are only carried, never
computed on).  Instrumentation (`CallLog`) records every invocation of
the generators and of the archive callback, which is what the claims
about "calls made" quantify over.
-/

/-- Runtime JSON values, used to model what `JSON.parse` can hand back to
the turn adapter (the TypeScript return-type annotation is not checked at
runtime, so the adapter really returns an arbitrary parsed value). -/
inductive Json where
  | null
  | bool (b : Bool)
  | num (n : Int)
  | str (s : String)
  | arr (elems : List Json)
  | obj (fields : List (String × Json))

/-- JavaScript property access `v.k` on a parsed value: defined on
objects, `undefined` (here `none`) elsewhere. -/
def Json.getField : Json → String → Option Json
  | .obj fields, k => (fields.find? (fun p => p.1 == k)).map (fun p => p.2)
  | _, _ => none

/-- Scene object kinds, from `SceneObjectType` in src/types.ts. -/
inductive SceneObjectType where
  | BEAKER | FLASK | SPHERE | CUBE | PLANE | CYLINDER
deriving DecidableEq, BEq

/-- One object of a 3D scene, from `SceneObjectConfig` in src/types.ts
(the optional `roughness`/`metalness` hints are never written by the
service layer and are omitted). -/
structure SceneObjectConfig where
  id : String
  type : SceneObjectType
  position : List Rat
  scale : Option (List Rat)
  color : Option String
  label : Option String
  liquidColor : Option String
  liquidLevel : Option Rat
deriving DecidableEq

/-- A declarative 3D scene, from `SceneConfig` in src/types.ts. -/
structure SceneConfig where
  objects : List SceneObjectConfig
  lightingColor : Option String
  environment : Option String
deriving DecidableEq

/-- End-of-run evaluation, from `AnalysisReport` in src/types.ts. -/
structure AnalysisReport where
  score : Int
  evaluation : String
  keyLearnings : List String
  suggestions : String
deriving DecidableEq

/-- Simulation scenario kinds, from `SimulationType` in src/types.ts. -/
inductive SimulationType where
  | HISTORY | CHEMISTRY | PHYSICS | LITERATURE | CODING | CUSTOM
deriving DecidableEq

/-- Chat roles of the transcript entries. -/
inductive Role where
  | user | model
deriving DecidableEq

/-- One transcript entry `{role, text}`. -/
structure HistoryEntry where
  role : Role
  text : String
deriving DecidableEq

/-- A well-shaped result of `generateSimulationTurn`, as consumed by
`handleAction` in SimulationView.tsx. -/
structure TurnResult where
  description : String
  options : List String
  isEnded : Bool
  shouldUpdateVisuals : Bool
  report : Option AnalysisReport
deriving DecidableEq

/-- Archived record of a completed run, from `SavedRecord` in
src/types.ts. -/
structure SavedRecord where
  id : String
  timestamp : Nat
  type : SimulationType
  topic : String
  report : AnalysisReport
  transcript : List HistoryEntry
deriving DecidableEq

/- ------------------------------------------------------------------
   geminiService.ts : generateSceneConfiguration
   ------------------------------------------------------------------ -/

/-- Outcome of the one upstream model call made by
`generateSceneConfiguration`:  rejection (error or `withTimeout`
timeout), empty `response.text`, text that `JSON.parse` rejects, or a
parsed scene configuration. -/
inductive SceneUpstream where
  | failure
  | emptyText
  | badJson
  | ok (c : SceneConfig)
deriving DecidableEq

/-- True on the branches where the `try` block of
`generateSceneConfiguration` throws. -/
def SceneUpstream.isFailure : SceneUpstream → Bool
  | .ok _ => false
  | _ => true

/-- The deterministic placeholder scene built by the `catch` branch of
`generateSceneConfiguration` when no previous configuration exists:
a ground `PLANE` ("实验台") and a red `CUBE` labelled "配置生成失败". -/
def sceneFallbackConfig : SceneConfig :=
  ⟨[⟨"floor", .PLANE, [0, -(1/2), 0], some [10, 1/2, 10], some "#1e293b",
      some "实验台", none, none⟩,
    ⟨"error_cube", .CUBE, [0, 1/2, 0], none, some "#ef4444",
      some "配置生成失败", none, none⟩],
   none, none⟩

/-- The `try` block of `generateSceneConfiguration`: the awaited call can
reject, the response text can be absent (`throw new Error("No config
generated")`), the parse can throw, or a configuration is produced. -/
def sceneTryBody : SceneUpstream → Except String SceneConfig
  | .failure => .error "Scene Config 请求超时，请重试"
  | .emptyText => .error "No config generated"
  | .badJson => .error "JSON parse error"
  | .ok c => .ok c

/-- Embedding of `generateSceneConfiguration(topic, context,
previousState)` from geminiService.ts.  The `topic`/`context` arguments
only feed the prompt; the returned value depends on the upstream outcome
and on `previousState`: on any failure the previous configuration is
returned unchanged when present, else the placeholder scene.  The
function is total — the `catch` swallows every error. -/
def generateSceneConfiguration (topic context : String)
    (previousState : Option SceneConfig) (u : SceneUpstream) : SceneConfig :=
  match sceneTryBody u with
  | .ok c => c
  | .error _ =>
    match previousState with
    | some prev => prev
    | none => sceneFallbackConfig

/- ------------------------------------------------------------------
   geminiService.ts : generateSimulationTurn
   ------------------------------------------------------------------ -/

/-- Outcome of the one upstream model call of `generateSimulationTurn`:
rejection/timeout, empty `response.text`, unparseable text, or text that
`JSON.parse` turns into the value `v` (of arbitrary shape — the code
performs no shape validation). -/
inductive TurnUpstream where
  | failure
  | emptyText
  | badJson
  | goodJson (v : Json)

/-- True on the degraded branches of `generateSimulationTurn` (rejection,
timeout, empty response, or JSON parse failure). -/
def TurnUpstream.isDegraded : TurnUpstream → Bool
  | .goodJson _ => false
  | _ => true

/-- The fallback turn returned by the inner `catch` of
`generateSimulationTurn` when `JSON.parse` throws. -/
def parseFallbackTurn : Json :=
  .obj [("description", .str "导师正在整理教案... (解析错误)"),
        ("options", .arr [.str "继续观察"]),
        ("shouldUpdateVisuals", .bool false),
        ("isEnded", .bool false)]

/-- The fallback turn returned by the outer `catch` of
`generateSimulationTurn` on upstream failure, timeout, or empty
response. -/
def errorFallbackTurn : Json :=
  .obj [("description", .str "与导师的连接不稳定，请重试。"),
        ("options", .arr [.str "重试"]),
        ("shouldUpdateVisuals", .bool false),
        ("isEnded", .bool false)]

/-- The `try` block of `generateSimulationTurn`: a rejected or timed-out
call propagates as an error, an absent text throws `"No response from
AI"`, a parse failure is handled by the inner try/catch (returning the
parse fallback), and a parsed value is returned verbatim. -/
def turnTryBody : TurnUpstream → Except String Json
  | .failure => .error "Simulation Turn 请求超时，请重试"
  | .emptyText => .error "No response from AI"
  | .badJson => .ok parseFallbackTurn
  | .goodJson v => .ok v

/-- Embedding of `generateSimulationTurn` from geminiService.ts: the
outer `catch` converts every error into the retry fallback, so the
adapter is total (it never throws to its caller).  Note that on the
`goodJson` branch the parsed value is returned without any shape
validation (`return parsedData`). -/
def generateSimulationTurn (u : TurnUpstream) : Json :=
  match turnTryBody u with
  | .ok v => v
  | .error _ => errorFallbackTurn

/- ------------------------------------------------------------------
   geminiService.ts : generateSimulationImage
   ------------------------------------------------------------------ -/

/-- The two visualization styles of SimulationView.tsx. -/
inductive VisualStyle where
  | ARTISTIC | SCHEMATIC
deriving DecidableEq, BEq

/-- One part of an image response candidate; `inlineData` carries
`(mimeType, data)` when present. -/
structure ImagePart where
  mimeType : String
  data : String
deriving DecidableEq

/-- Outcome of the one upstream model call of `generateSimulationImage`:
rejection/timeout, a response without candidate parts, or a response
with a list of parts (each optionally carrying inline data). -/
inductive ImageUpstream where
  | failure
  | noParts
  | parts (ps : List (Option ImagePart))
deriving DecidableEq

/-- Flag disabling the image-cache lookup (`DB_SEARCH_ENABLED` in
geminiService.ts). -/
def DB_SEARCH_ENABLED : Bool := false

/-- `searchImageDatabase`: with the flag off it always answers `null`
without any network traffic. -/
def searchImageDatabase (_prompt : String) : Option String :=
  if DB_SEARCH_ENABLED then none else none

/-- The style-specific prompt prefix chosen for `SCHEMATIC`. -/
def schematicStylePrompt : String :=
  "Educational textbook illustration, clean vector lines, schematic diagram, scientific visualization, white background, labeled parts style."

/-- The style-specific prompt prefix chosen for `ARTISTIC`. -/
def artisticStylePrompt : String :=
  "Historical painting or Scientific Visualization, highly detailed, realistic textures, educational atmosphere, accurate period/lab details."

/-- The part-scanning loop of `generateSimulationImage`: the first part
with non-empty inline data yields the data URL. -/
def firstInlineImage : List (Option ImagePart) → Option String
  | [] => none
  | some p :: rest =>
    if p.data ≠ "" then
      some ("data:" ++ p.mimeType ++ ";base64," ++ p.data)
    else firstInlineImage rest
  | none :: rest => firstInlineImage rest

/-- Embedding of `generateSimulationImage(description, style)` from
geminiService.ts.  Returns the resolved value together with the number
of upstream network calls this invocation issues.  There is no
short-circuit on `style`: both styles build a prompt and call
`ai.models.generateContent` (exactly one network call on every path;
errors resolve to `null`). -/
def generateSimulationImage (description : String) (style : VisualStyle)
    (u : ImageUpstream) : Option String × Nat :=
  match searchImageDatabase description with
  | some cached => (some cached, 0)
  | none =>
    let stylePrompt :=
      match style with
      | .SCHEMATIC => schematicStylePrompt
      | .ARTISTIC => artisticStylePrompt
    let _prompt := stylePrompt ++ " Subject matter: " ++ description.take 300
    match u with
    | .failure => (none, 1)
    | .noParts => (none, 1)
    | .parts ps => (firstInlineImage ps, 1)

/- ------------------------------------------------------------------
   SimulationView.tsx : orchestrator state
   ------------------------------------------------------------------ -/

/-- The `SimulationState` React state of SimulationView.tsx. -/
structure SimulationState where
  description : String
  imageBase64 : Option String
  options : List String
  history : List HistoryEntry
  isLoading : Bool
  isImageLoading : Bool
  waitingForVisualChoice : Bool
  isEnded : Bool
  report : Option AnalysisReport
  sceneConfig : Option SceneConfig
deriving DecidableEq

/-- The full component-local state of SimulationView: `simState` plus
the separate `visualStyle`, `customInput`, `showReportModal` state
hooks and the `reportSaved` ref. -/
structure ViewState where
  simState : SimulationState
  visualStyle : Option VisualStyle
  customInput : String
  showReportModal : Bool
  reportSaved : Bool
deriving DecidableEq

/-- The props of SimulationView that the orchestrator reads. -/
structure SimProps where
  type : SimulationType
  title : String
  initialContext : String
deriving DecidableEq

/-- Instrumentation: every generator invocation and archive save made so
far.  `sceneCalls` records the `(topic, context, previousState)`
arguments of each `generateSceneConfiguration` call; `imageCalls`
records the `(description, style)` arguments of each
`generateSimulationImage` call; `saveCalls` records each record handed
to `onSaveRecord` (the ArchiveStore.save callback). -/
structure CallLog where
  turnCalls : Nat
  sceneCalls : List (String × String × Option SceneConfig)
  imageCalls : List (String × VisualStyle)
  saveCalls : List SavedRecord
deriving DecidableEq

/-- The empty call log. -/
def emptyLog : CallLog := ⟨0, [], [], []⟩

/-- The `isScientificMode` flag of SimulationView.tsx:
`type === PHYSICS || type === CHEMISTRY || type === HISTORY`. -/
def isScientificMode : SimulationType → Bool
  | .PHYSICS => true
  | .CHEMISTRY => true
  | .HISTORY => true
  | _ => false

/-- The state SimulationView mounts with (`useState` initializers). -/
def initialSimState : SimulationState :=
  ⟨"正在初始化模拟环境...", none, [], [], true, true, false, false, none, none⟩

/-- The full initial component state. -/
def initialViewState : ViewState := ⟨initialSimState, none, "", false, false⟩

/-- Outcome of an awaited `generateSimulationTurn(...)` promise as seen
by the orchestrator's try/catch.  The adapter itself never rejects
(every branch returns), so `thrown` is unreachable in the composed
system; it is kept to model the `catch` branches faithfully. -/
inductive TurnCallOutcome where
  | ok (t : TurnResult)
  | thrown
deriving DecidableEq

/- ------------------------------------------------------------------
   SimulationView.tsx : triggerImageGeneration / handleVisualChoice
   ------------------------------------------------------------------ -/

/-- Embedding of `triggerImageGeneration(description, style, isEnded)`.
For `SCHEMATIC` it returns at once (caller-side no-op guard).
Otherwise it flags the image as loading, clears the choice gate, awaits
`generateSimulationImage` (logged in `imageCalls`), stores the result
(possibly `null`), and on an ended run schedules the report modal. -/
def triggerImageGeneration (s : ViewState) (log : CallLog)
    (description : String) (style : VisualStyle) (isEnded : Bool)
    (imgU : ImageUpstream) : ViewState × CallLog :=
  if style = .SCHEMATIC then (s, log)
  else
    let s1 := { s with simState :=
      { s.simState with isImageLoading := true, waitingForVisualChoice := false } }
    let image := (generateSimulationImage description style imgU).1
    let log1 := { log with imageCalls := log.imageCalls ++ [(description, style)] }
    let s2 := { s1 with simState :=
      { s1.simState with imageBase64 := image, isImageLoading := false } }
    let s3 := if isEnded then { s2 with showReportModal := true } else s2
    (s3, log1)

/-- Embedding of `handleVisualChoice(style)`: makes the style sticky;
`ARTISTIC` immediately triggers image generation for the current
description, `SCHEMATIC` only clears the loading flag and the choice
gate (the scene configuration already exists from initialization). -/
def handleVisualChoice (s : ViewState) (log : CallLog) (style : VisualStyle)
    (imgU : ImageUpstream) : ViewState × CallLog :=
  let s1 := { s with visualStyle := some style }
  match style with
  | .ARTISTIC =>
    triggerImageGeneration s1 log s.simState.description .ARTISTIC
      s.simState.isEnded imgU
  | .SCHEMATIC =>
    ({ s1 with simState :=
       { s1.simState with isImageLoading := false, waitingForVisualChoice := false } },
     log)

/- ------------------------------------------------------------------
   SimulationView.tsx : handleAction
   ------------------------------------------------------------------ -/

/-- JavaScript `String.prototype.trim`: strip leading and trailing
whitespace (defined over the character list so that it evaluates by
kernel reduction). -/
def jsTrim (s : String) : String :=
  ⟨((s.data.dropWhile Char.isWhitespace).reverse.dropWhile
      Char.isWhitespace).reverse⟩

/-- The silent-reject guard of `handleAction`:
`!actionText.trim() || isLoading || isEnded || waitingForVisualChoice`. -/
def actionBlocked (st : SimulationState) (actionText : String) : Bool :=
  jsTrim actionText == "" || st.isLoading || st.isEnded || st.waitingForVisualChoice

/-- Embedding of `handleAction(actionText)` from SimulationView.tsx.
The outcome of the awaited turn call and, when a scene regeneration is
issued, of the scene call, are explicit inputs.  On a blocked
precondition the state and the log are returned untouched.  On success:
the user and model messages are appended to the history, options are
replaced, flags and report are taken from the turn, the scene is
regenerated only when `isScientificMode && turn.shouldUpdateVisuals`
(seeded with the previous configuration), and an image is regenerated
only when `visualStyle === ARTISTIC && (turn.shouldUpdateVisuals ||
turn.isEnded)`; in `SCHEMATIC` style an ended turn only schedules the
report modal. -/
def handleAction (p : SimProps) (s : ViewState) (log : CallLog)
    (actionText : String) (turnOutcome : TurnCallOutcome)
    (sceneU : SceneUpstream) (imgU : ImageUpstream) : ViewState × CallLog :=
  if actionBlocked s.simState actionText then (s, log)
  else
    let s1 := { s with
      simState := { s.simState with isLoading := true },
      customInput := "" }
    let newHistory := s.simState.history ++ [⟨.user, actionText⟩]
    let log1 := { log with turnCalls := log.turnCalls + 1 }
    match turnOutcome with
    | .thrown =>
      ({ s1 with simState := { s1.simState with isLoading := false } }, log1)
    | .ok turn =>
      let sceneStep : Option SceneConfig × CallLog :=
        if isScientificMode p.type then
          if turn.shouldUpdateVisuals then
            (some (generateSceneConfiguration p.title turn.description
                     s.simState.sceneConfig sceneU),
             { log1 with sceneCalls :=
                 log1.sceneCalls ++ [(p.title, turn.description, s.simState.sceneConfig)] })
          else (s.simState.sceneConfig, log1)
        else (s.simState.sceneConfig, log1)
      let newSceneConfig := sceneStep.1
      let log2 := sceneStep.2
      let s2 := { s1 with simState := { s1.simState with
          description := turn.description,
          options := turn.options,
          history := newHistory ++ [⟨.model, turn.description⟩],
          isLoading := false,
          isEnded := turn.isEnded,
          report := turn.report,
          sceneConfig := newSceneConfig.orElse fun _ => s.simState.sceneConfig } }
      if s.visualStyle = some .ARTISTIC && (turn.shouldUpdateVisuals || turn.isEnded) then
        triggerImageGeneration s2 log2 turn.description .ARTISTIC turn.isEnded imgU
      else if s.visualStyle = some .SCHEMATIC then
        if turn.isEnded then ({ s2 with showReportModal := true }, log2)
        else (s2, log2)
      else (s2, log2)

/- ------------------------------------------------------------------
   SimulationView.tsx : startSimulation (initialization)
   ------------------------------------------------------------------ -/

/-- Embedding of `startSimulation` (the one-shot initialization effect).
It always issues the first turn call and, for scientific scenario
kinds, also issues one `generateSceneConfiguration(title,
initialContext, null)` call in parallel (both awaited via
`Promise.all`).  On success the state is seeded from the turn and, for
scientific kinds, `waitingForVisualChoice` is raised with no image call;
otherwise the style becomes `ARTISTIC` and an image is generated for the
initial description.  On a rejected `Promise.all` a fallback description
is shown and all loading flags are cleared. -/
def startSimulation (p : SimProps) (log : CallLog)
    (turnOutcome : TurnCallOutcome) (sceneU : SceneUpstream)
    (imgU : ImageUpstream) : ViewState × CallLog :=
  let log1 := { log with turnCalls := log.turnCalls + 1 }
  let sceneStep : Option SceneConfig × CallLog :=
    if isScientificMode p.type then
      (some (generateSceneConfiguration p.title p.initialContext none sceneU),
       { log1 with sceneCalls :=
           log1.sceneCalls ++ [(p.title, p.initialContext, none)] })
    else (none, log1)
  let sceneConfig := sceneStep.1
  let log2 := sceneStep.2
  match turnOutcome with
  | .thrown =>
    ({ initialViewState with simState := { initialSimState with
        description := "初始化失败，请重试。",
        isLoading := false,
        isImageLoading := false,
        waitingForVisualChoice := false } },
     log2)
  | .ok turn =>
    let st := { initialSimState with
      description := turn.description,
      options := turn.options,
      history := [⟨.model, turn.description⟩],
      isLoading := false,
      isEnded := turn.isEnded,
      report := turn.report,
      isImageLoading := false,
      waitingForVisualChoice := false,
      sceneConfig := sceneConfig }
    if isScientificMode p.type then
      ({ initialViewState with
         simState := { st with waitingForVisualChoice := true } }, log2)
    else
      let s1 := { initialViewState with
        simState := st, visualStyle := some VisualStyle.ARTISTIC }
      triggerImageGeneration s1 log2 turn.description .ARTISTIC turn.isEnded imgU

/- ------------------------------------------------------------------
   SimulationView.tsx : auto-save effect
   ------------------------------------------------------------------ -/

/-- The `topic` expression of the saved record:
`title || history[0]?.text.substring(0, 50) || "Unknown Simulation"`. -/
def recordTopic (title : String) (history : List HistoryEntry) : String :=
  if title ≠ "" then title
  else
    match history with
    | h :: _ => if h.text.take 50 ≠ "" then h.text.take 50 else "Unknown Simulation"
    | [] => "Unknown Simulation"

/-- The `SavedRecord` built by the auto-save effect at time `now`
(`Date.now()`). -/
def mkSavedRecord (p : SimProps) (now : Nat) (st : SimulationState)
    (rep : AnalysisReport) : SavedRecord :=
  ⟨toString now, now, p.type, recordTopic p.title st.history, rep, st.history⟩

/-- Embedding of the auto-save `useEffect`: one run of the completion
check.  When `isEnded` holds, a report is present and the `reportSaved`
ref is still false, the ref is raised first and `onSaveRecord` is
invoked once; otherwise nothing happens. -/
def saveEffect (p : SimProps) (now : Nat) (s : ViewState) (log : CallLog) :
    ViewState × CallLog :=
  match s.simState.report with
  | some rep =>
    if s.simState.isEnded && !s.reportSaved then
      ({ s with reportSaved := true },
       { log with saveCalls := log.saveCalls ++ [mkSavedRecord p now s.simState rep] })
    else (s, log)
  | none => (s, log)

/- ------------------------------------------------------------------
   Session traces
   ------------------------------------------------------------------ -/

/-- The UI events that can reach the orchestrator after initialization:
a user action (with the outcomes of the external calls it may issue), a
visualization-mode pick (only reachable while the choice overlay is
shown, i.e. while `waitingForVisualChoice` is true), and a run of the
auto-save completion check at some timestamp. -/
inductive Event where
  | action (actionText : String) (turnOutcome : TurnCallOutcome)
      (sceneU : SceneUpstream) (imgU : ImageUpstream)
  | visualChoice (style : VisualStyle) (imgU : ImageUpstream)
  | saveCheck (now : Nat)

/-- One step of the session state machine. -/
def step (p : SimProps) (sl : ViewState × CallLog) : Event → ViewState × CallLog
  | .action a t u i => handleAction p sl.1 sl.2 a t u i
  | .visualChoice style i =>
    if sl.1.simState.waitingForVisualChoice then
      handleVisualChoice sl.1 sl.2 style i
    else sl
  | .saveCheck now => saveEffect p now sl.1 sl.2

/-- A session run: fold the step function over a list of events. -/
def run (p : SimProps) (sl : ViewState × CallLog) (es : List Event) :
    ViewState × CallLog :=
  es.foldl (step p) sl

/- ------------------------------------------------------------------
   Helper lemmas
   ------------------------------------------------------------------ -/

/-- JavaScript `o || o` keeps `o`. -/
theorem orElse_self {α : Type} (o : Option α) :
    (Option.orElse o fun _ => o) = o := by
  cases o <;> rfl

/-- Concrete fixtures used by the closed witnesses below. -/
def sampleReport : AnalysisReport :=
  ⟨85, "表现良好", ["斜面受力分析"], "继续练习"⟩

/-- A small concrete scene used as a previous configuration in
witnesses. -/
def cfgA : SceneConfig :=
  ⟨[⟨"ball", .SPHERE, [0, 1, 0], none, some "#ffffff", some "小球", none, none⟩],
   none, none⟩

/- ------------------------------------------------------------------
   C6 / C7 / C9 / C10(adapter) : service-layer claims
   ------------------------------------------------------------------ -/

/-- C6: whenever `generateSceneConfiguration` fails (upstream error,
timeout, empty response, or unparseable response), it returns the
non-null previous configuration unchanged, and with no previous
configuration it returns the fixed placeholder scene, whose objects are
a ground `PLANE` and a marker labelled "配置生成失败"; the call never
throws (the function is total). -/
theorem sceneConfig_failure_recovery (topic context : String)
    (prev : Option SceneConfig) (u : SceneUpstream)
    (h : u.isFailure = true) :
    generateSceneConfiguration topic context prev u = prev.getD sceneFallbackConfig
    ∧ (sceneFallbackConfig.objects.map fun o => o.type)
        = [SceneObjectType.PLANE, SceneObjectType.CUBE]
    ∧ (sceneFallbackConfig.objects.map fun o => o.label)
        = [some "实验台", some "配置生成失败"] := by
  refine ⟨?_, rfl, rfl⟩
  cases u with
  | ok c => simp [SceneUpstream.isFailure] at h
  | failure => cases prev <;> rfl
  | emptyText => cases prev <;> rfl
  | badJson => cases prev <;> rfl

/-- Witness for C6 at a concrete failing call with a previous scene. -/
theorem sceneConfig_failure_recovery_witness :
    SceneUpstream.isFailure .failure = true
    ∧ generateSceneConfiguration "物理" "斜面" (some cfgA) .failure
        = (some cfgA).getD sceneFallbackConfig :=
  ⟨rfl, (sceneConfig_failure_recovery "物理" "斜面" (some cfgA) .failure rfl).1⟩

/-- C7 counterexample: the adapter does not validate the shape of a
successfully parsed response, so a response whose text parses to the
empty JSON object is returned as-is and carries no `description` (nor
`isEnded`), refuting "for every input the result contains a description
and an isEnded value". -/
theorem turn_adapter_shape_gap_cex :
    (generateSimulationTurn (TurnUpstream.goodJson (Json.obj []))).getField
      "description" = none
    ∧ (generateSimulationTurn (TurnUpstream.goodJson (Json.obj []))).getField
      "isEnded" = none := ⟨rfl, rfl⟩

/-- C7 (amended): `generateSimulationTurn` never throws past the
adapter: upstream failure, timeout and empty responses yield the fixed
retry fallback, a JSON parse failure yields the stable parse fallback,
and both fallbacks carry a `description` and an `isEnded`; a
syntactically valid JSON response, however, is returned verbatim without
shape validation. -/
theorem turn_adapter_totality :
    generateSimulationTurn .failure = errorFallbackTurn
    ∧ generateSimulationTurn .emptyText = errorFallbackTurn
    ∧ generateSimulationTurn .badJson = parseFallbackTurn
    ∧ (∀ v : Json, generateSimulationTurn (.goodJson v) = v)
    ∧ (errorFallbackTurn.getField "description").isSome = true
    ∧ (errorFallbackTurn.getField "isEnded").isSome = true
    ∧ (parseFallbackTurn.getField "description").isSome = true
    ∧ (parseFallbackTurn.getField "isEnded").isSome = true :=
  ⟨rfl, rfl, rfl, fun _ => rfl, rfl, rfl, rfl, rfl⟩

/-- C9 counterexample: `generateSimulationImage` called with style
`SCHEMATIC` still issues one upstream network call (it merely selects a
schematic prompt), refuting the claimed central no-op short-circuit. -/
theorem image_schematic_no_shortcircuit_cex :
    (generateSimulationImage "test scene" VisualStyle.SCHEMATIC
      ImageUpstream.failure).2 = 1 := rfl

/-- C9 (amended): the `SCHEMATIC` no-op is enforced only by the caller:
`triggerImageGeneration` returns immediately for `SCHEMATIC` (no state
change, no image call logged), while `generateSimulationImage` itself
issues exactly one network call for every style and upstream outcome. -/
theorem image_schematic_caller_enforced :
    (∀ (d : String) (u : ImageUpstream),
      (generateSimulationImage d VisualStyle.SCHEMATIC u).2 = 1)
    ∧ (∀ (d : String) (style : VisualStyle) (u : ImageUpstream),
      (generateSimulationImage d style u).2 = 1)
    ∧ (∀ (s : ViewState) (log : CallLog) (d : String) (e : Bool)
        (u : ImageUpstream),
      triggerImageGeneration s log d VisualStyle.SCHEMATIC e u = (s, log)) := by
  refine ⟨fun d u => ?_, fun d style u => ?_, fun s log d e u => rfl⟩
  · cases u <;> rfl
  · cases style <;> cases u <;> rfl

/- ------------------------------------------------------------------
   Fixtures for closed witnesses and counterexamples
   ------------------------------------------------------------------ -/

/-- A scientific-scenario prop set (PHYSICS). -/
def pPhys : SimProps := ⟨.PHYSICS, "斜面实验", "一个小球静止在斜面上"⟩

/-- A ready mid-run state in SCHEMATIC mode (not loading, not ended,
choice already made, one model message in the history). -/
def readyState : ViewState :=
  ⟨⟨"小球静止在斜面上", none, ["推小球"], [⟨.model, "小球静止在斜面上"⟩],
    false, false, false, false, none, some cfgA⟩,
   some .SCHEMATIC, "", false, false⟩

/-- A successful mid-run turn that requests a visual update. -/
def turnA : TurnResult := ⟨"小球滑下斜面", ["继续观察"], false, true, none⟩

/-- A successful final turn that ends the run without requesting a
visual update. -/
def turnEndNoUpdate : TurnResult := ⟨"实验结束", [], true, false, some sampleReport⟩

/- ------------------------------------------------------------------
   Projection lemmas about handleAction
   ------------------------------------------------------------------ -/

/-- A blocked precondition makes `handleAction` a strict no-op. -/
theorem handleAction_blocked (p : SimProps) (s : ViewState) (log : CallLog)
    (a : String) (t : TurnCallOutcome) (cU : SceneUpstream) (iU : ImageUpstream)
    (h : actionBlocked s.simState a = true) :
    handleAction p s log a t cU iU = (s, log) := by
  unfold handleAction
  simp [h]

/-- On a successful unblocked turn, the scene-call log grows by exactly
the seeded regeneration call when `isScientificMode &&
shouldUpdateVisuals`, and is untouched otherwise. -/
theorem handleAction_ok_sceneCalls (p : SimProps) (s : ViewState) (log : CallLog)
    (a : String) (t : TurnResult) (cU : SceneUpstream) (iU : ImageUpstream)
    (hG : actionBlocked s.simState a = false) :
    (handleAction p s log a (.ok t) cU iU).2.sceneCalls
      = log.sceneCalls ++
        (if isScientificMode p.type && t.shouldUpdateVisuals then
          [(p.title, t.description, s.simState.sceneConfig)] else []) := by
  unfold handleAction triggerImageGeneration
  simp only [hG, Bool.false_eq_true, if_false]
  cases hSci : isScientificMode p.type <;>
    cases hU : t.shouldUpdateVisuals <;>
      cases hE : t.isEnded <;>
        rcases hA : s.visualStyle with _ | (_ | _) <;>
          simp_all [show (VisualStyle.SCHEMATIC == VisualStyle.ARTISTIC) = false from rfl,
            show (VisualStyle.ARTISTIC == VisualStyle.ARTISTIC) = true from rfl]

/-- On a successful unblocked turn, the image-call log grows by exactly
one artistic call when `visualStyle === ARTISTIC && (shouldUpdateVisuals
|| isEnded)`, and is untouched otherwise. -/
theorem handleAction_ok_imageCalls (p : SimProps) (s : ViewState) (log : CallLog)
    (a : String) (t : TurnResult) (cU : SceneUpstream) (iU : ImageUpstream)
    (hG : actionBlocked s.simState a = false) :
    (handleAction p s log a (.ok t) cU iU).2.imageCalls
      = log.imageCalls ++
        (if (s.visualStyle == some VisualStyle.ARTISTIC)
            && (t.shouldUpdateVisuals || t.isEnded) then
          [(t.description, VisualStyle.ARTISTIC)] else []) := by
  unfold handleAction triggerImageGeneration
  simp only [hG, Bool.false_eq_true, if_false]
  cases hSci : isScientificMode p.type <;>
    cases hU : t.shouldUpdateVisuals <;>
      cases hE : t.isEnded <;>
        rcases hA : s.visualStyle with _ | (_ | _) <;>
          simp_all [show (VisualStyle.SCHEMATIC == VisualStyle.ARTISTIC) = false from rfl,
            show (VisualStyle.ARTISTIC == VisualStyle.ARTISTIC) = true from rfl]

/-- On a successful unblocked turn, the history becomes the old history
with exactly the user message and the model message appended. -/
theorem handleAction_ok_history (p : SimProps) (s : ViewState) (log : CallLog)
    (a : String) (t : TurnResult) (cU : SceneUpstream) (iU : ImageUpstream)
    (hG : actionBlocked s.simState a = false) :
    (handleAction p s log a (.ok t) cU iU).1.simState.history
      = s.simState.history ++ [⟨.user, a⟩, ⟨.model, t.description⟩] := by
  unfold handleAction triggerImageGeneration
  simp only [hG, Bool.false_eq_true, if_false]
  cases hSci : isScientificMode p.type <;>
    cases hU : t.shouldUpdateVisuals <;>
      cases hE : t.isEnded <;>
        rcases hA : s.visualStyle with _ | (_ | _) <;>
          simp_all [show (VisualStyle.SCHEMATIC == VisualStyle.ARTISTIC) = false from rfl,
            show (VisualStyle.ARTISTIC == VisualStyle.ARTISTIC) = true from rfl]

/-- On a successful unblocked turn, `isEnded` and `report` are taken
from the turn result. -/
theorem handleAction_ok_ended_report (p : SimProps) (s : ViewState) (log : CallLog)
    (a : String) (t : TurnResult) (cU : SceneUpstream) (iU : ImageUpstream)
    (hG : actionBlocked s.simState a = false) :
    (handleAction p s log a (.ok t) cU iU).1.simState.isEnded = t.isEnded
    ∧ (handleAction p s log a (.ok t) cU iU).1.simState.report = t.report := by
  unfold handleAction triggerImageGeneration
  simp only [hG, Bool.false_eq_true, if_false]
  cases hSci : isScientificMode p.type <;>
    cases hU : t.shouldUpdateVisuals <;>
      cases hE : t.isEnded <;>
        rcases hA : s.visualStyle with _ | (_ | _) <;>
          simp_all [show (VisualStyle.SCHEMATIC == VisualStyle.ARTISTIC) = false from rfl,
            show (VisualStyle.ARTISTIC == VisualStyle.ARTISTIC) = true from rfl]

/-- `handleAction` never changes the sticky `visualStyle`. -/
theorem handleAction_visualStyle (p : SimProps) (s : ViewState) (log : CallLog)
    (a : String) (tOut : TurnCallOutcome) (cU : SceneUpstream) (iU : ImageUpstream) :
    (handleAction p s log a tOut cU iU).1.visualStyle = s.visualStyle := by
  unfold handleAction triggerImageGeneration
  cases hB : actionBlocked s.simState a <;> cases tOut <;>
    try rfl
  case false.ok t =>
    simp only [Bool.false_eq_true, if_false]
    cases hSci : isScientificMode p.type <;>
      cases hU : t.shouldUpdateVisuals <;>
        cases hE : t.isEnded <;>
          rcases hA : s.visualStyle with _ | (_ | _) <;>
            simp_all [show (VisualStyle.SCHEMATIC == VisualStyle.ARTISTIC) = false from rfl,
              show (VisualStyle.ARTISTIC == VisualStyle.ARTISTIC) = true from rfl]

/-- `handleAction` never raises the `waitingForVisualChoice` gate. -/
theorem handleAction_waiting_false (p : SimProps) (s : ViewState) (log : CallLog)
    (a : String) (tOut : TurnCallOutcome) (cU : SceneUpstream) (iU : ImageUpstream)
    (h : s.simState.waitingForVisualChoice = false) :
    (handleAction p s log a tOut cU iU).1.simState.waitingForVisualChoice = false := by
  unfold handleAction triggerImageGeneration
  cases hB : actionBlocked s.simState a <;> cases tOut <;>
    try simpa using h
  case false.ok t =>
    simp only [Bool.false_eq_true, if_false]
    cases hSci : isScientificMode p.type <;>
      cases hU : t.shouldUpdateVisuals <;>
        cases hE : t.isEnded <;>
          rcases hA : s.visualStyle with _ | (_ | _) <;>
            simp_all [show (VisualStyle.SCHEMATIC == VisualStyle.ARTISTIC) = false from rfl,
              show (VisualStyle.ARTISTIC == VisualStyle.ARTISTIC) = true from rfl]

/-- In `SCHEMATIC` style `handleAction` never logs an image call. -/
theorem handleAction_schematic_imageCalls (p : SimProps) (s : ViewState)
    (log : CallLog) (a : String) (tOut : TurnCallOutcome) (cU : SceneUpstream)
    (iU : ImageUpstream) (h : s.visualStyle = some VisualStyle.SCHEMATIC) :
    (handleAction p s log a tOut cU iU).2.imageCalls = log.imageCalls := by
  unfold handleAction triggerImageGeneration
  cases hB : actionBlocked s.simState a <;> cases tOut <;>
    try rfl
  case false.ok t =>
    simp only [Bool.false_eq_true, if_false]
    cases hSci : isScientificMode p.type <;>
      cases hU : t.shouldUpdateVisuals <;>
        cases hE : t.isEnded <;>
          simp_all [show (VisualStyle.SCHEMATIC == VisualStyle.ARTISTIC) = false from rfl]

/-- The completion check is inert once the `reportSaved` ref is set. -/
theorem saveEffect_saved (p : SimProps) (now : Nat) (s : ViewState) (log : CallLog)
    (h : s.reportSaved = true) :
    saveEffect p now s log = (s, log) := by
  unfold saveEffect
  cases hr : s.simState.report <;> simp [h]

/-- The completion check is inert when no report is present. -/
theorem saveEffect_no_report (p : SimProps) (now : Nat) (s : ViewState)
    (log : CallLog) (h : s.simState.report = none) :
    saveEffect p now s log = (s, log) := by
  unfold saveEffect
  simp [h]

/- ------------------------------------------------------------------
   C8 : no-op preconditions
   ------------------------------------------------------------------ -/

/-- C8: a `HandleAction` call with an empty/whitespace-only action, or
made while loading, after the run ended, or while the visualization
choice is pending, changes nothing — the state is returned untouched and
the call log (turn, scene, image, save calls) is unchanged. -/
theorem handleAction_noop_preconditions (p : SimProps) (s : ViewState)
    (log : CallLog) (a : String) (tOut : TurnCallOutcome) (cU : SceneUpstream)
    (iU : ImageUpstream)
    (h : jsTrim a = "" ∨ s.simState.isLoading = true ∨ s.simState.isEnded = true
         ∨ s.simState.waitingForVisualChoice = true) :
    handleAction p s log a tOut cU iU = (s, log) := by
  apply handleAction_blocked
  unfold actionBlocked
  rcases h with h | h | h | h <;> simp [h]

/-- Witness for C8: a whitespace-only action against a ready state is a
strict no-op. -/
theorem handleAction_noop_preconditions_witness :
    jsTrim " " = ""
    ∧ handleAction pPhys readyState emptyLog " " (.ok turnA) .failure .failure
        = (readyState, emptyLog) :=
  ⟨by decide,
   handleAction_noop_preconditions pPhys readyState emptyLog " " (.ok turnA)
     .failure .failure (Or.inl (by decide))⟩

/- ------------------------------------------------------------------
   C4 : history monotonicity
   ------------------------------------------------------------------ -/

/-- C4: every successful unblocked `HandleAction` call grows the history
by exactly two entries — the USER message followed by the MODEL message
appended at the end — so existing entries are never mutated, reordered,
or pruned (the old history is a prefix of the new one). -/
theorem history_monotonicity (p : SimProps) (s : ViewState) (log : CallLog)
    (a : String) (t : TurnResult) (cU : SceneUpstream) (iU : ImageUpstream)
    (hG : actionBlocked s.simState a = false) :
    (handleAction p s log a (.ok t) cU iU).1.simState.history
      = s.simState.history ++ [⟨.user, a⟩, ⟨.model, t.description⟩]
    ∧ (handleAction p s log a (.ok t) cU iU).1.simState.history.length
      = s.simState.history.length + 2 := by
  have h := handleAction_ok_history p s log a t cU iU hG
  exact ⟨h, by rw [h]; simp⟩

/-- Witness for C4 at a concrete turn in a ready state. -/
theorem history_monotonicity_witness :
    actionBlocked readyState.simState "推小球" = false
    ∧ (handleAction pPhys readyState emptyLog "推小球" (.ok turnA) (.ok cfgA)
        .failure).1.simState.history
      = readyState.simState.history
          ++ [⟨.user, "推小球"⟩, ⟨.model, turnA.description⟩] :=
  ⟨by decide,
   (history_monotonicity pPhys readyState emptyLog "推小球" turnA (.ok cfgA)
     .failure (by decide)).1⟩

/- ------------------------------------------------------------------
   C1 : visual-regeneration policy
   ------------------------------------------------------------------ -/

/-- C1 counterexample: in SCHEMATIC mode a successful final turn with
`shouldUpdateVisuals=false` and `isEnded=true` regenerates nothing — no
scene-config call and no image call is made — refuting the claim that a
regeneration call is made whenever `isEnded` is true. -/
theorem visual_policy_isEnded_cex :
    (handleAction pPhys readyState emptyLog "总结" (.ok turnEndNoUpdate)
      .failure .failure).2.sceneCalls = []
    ∧ (handleAction pPhys readyState emptyLog "总结" (.ok turnEndNoUpdate)
      .failure .failure).2.imageCalls = []
    ∧ (handleAction pPhys readyState emptyLog "总结" (.ok turnEndNoUpdate)
      .failure .failure).1.simState.isEnded = true := by
  refine ⟨?_, ?_, ?_⟩ <;> decide

/-- C1 (amended): after a successful unblocked turn, a scene-config
regeneration (seeded with the previous SceneConfig) is made iff the
scenario kind is scientific and `shouldUpdateVisuals` is true —
`isEnded` alone does not trigger it — and an image regeneration is made
iff `visualStyle === ARTISTIC` and (`shouldUpdateVisuals` or `isEnded`);
in particular, when both flags are false no visual call of either kind
is made. -/
theorem visual_regeneration_policy (p : SimProps) (s : ViewState) (log : CallLog)
    (a : String) (t : TurnResult) (cU : SceneUpstream) (iU : ImageUpstream)
    (hG : actionBlocked s.simState a = false) :
    (handleAction p s log a (.ok t) cU iU).2.sceneCalls
      = log.sceneCalls ++
        (if isScientificMode p.type && t.shouldUpdateVisuals then
          [(p.title, t.description, s.simState.sceneConfig)] else [])
    ∧ (handleAction p s log a (.ok t) cU iU).2.imageCalls
      = log.imageCalls ++
        (if (s.visualStyle == some VisualStyle.ARTISTIC)
            && (t.shouldUpdateVisuals || t.isEnded) then
          [(t.description, VisualStyle.ARTISTIC)] else []) :=
  ⟨handleAction_ok_sceneCalls p s log a t cU iU hG,
   handleAction_ok_imageCalls p s log a t cU iU hG⟩

/-- Witness for C1 at a concrete scientific turn requesting a visual
update: exactly one scene call, seeded with the previous scene, and no
image call. -/
theorem visual_regeneration_policy_witness :
    actionBlocked readyState.simState "推小球" = false
    ∧ (handleAction pPhys readyState emptyLog "推小球" (.ok turnA) (.ok cfgA)
        .failure).2.sceneCalls
      = emptyLog.sceneCalls ++
        (if isScientificMode pPhys.type && turnA.shouldUpdateVisuals then
          [(pPhys.title, turnA.description, readyState.simState.sceneConfig)] else []) :=
  ⟨by decide,
   (visual_regeneration_policy pPhys readyState emptyLog "推小球" turnA (.ok cfgA)
     .failure (by decide)).1⟩

/- ------------------------------------------------------------------
   C10 : degraded turns cannot end the run
   ------------------------------------------------------------------ -/

/-- C10: every fallback the turn adapter produces on a degraded path
(parse failure, upstream error, empty response, or timeout) carries
`isEnded=false`, `shouldUpdateVisuals=false` and no `report`; and any
successful unblocked `handleAction` turn whose result has those three
values leaves the run unended and report-free, logs no scene or image
call, and keeps the completion check inert. -/
theorem degraded_turn_consequences :
    (∀ u : TurnUpstream, u.isDegraded = true →
      (generateSimulationTurn u).getField "isEnded" = some (.bool false)
      ∧ (generateSimulationTurn u).getField "shouldUpdateVisuals" = some (.bool false)
      ∧ (generateSimulationTurn u).getField "report" = none)
    ∧ (∀ (p : SimProps) (s : ViewState) (log : CallLog) (a : String)
        (cU : SceneUpstream) (iU : ImageUpstream) (t : TurnResult),
      actionBlocked s.simState a = false →
      t.isEnded = false → t.shouldUpdateVisuals = false → t.report = none →
      (handleAction p s log a (.ok t) cU iU).1.simState.isEnded = false
      ∧ (handleAction p s log a (.ok t) cU iU).1.simState.report = none
      ∧ (handleAction p s log a (.ok t) cU iU).2.sceneCalls = log.sceneCalls
      ∧ (handleAction p s log a (.ok t) cU iU).2.imageCalls = log.imageCalls
      ∧ ∀ now : Nat,
          saveEffect p now (handleAction p s log a (.ok t) cU iU).1
              (handleAction p s log a (.ok t) cU iU).2
            = ((handleAction p s log a (.ok t) cU iU).1,
               (handleAction p s log a (.ok t) cU iU).2)) := by
  constructor
  · intro u hu
    cases u with
    | goodJson v => simp [TurnUpstream.isDegraded] at hu
    | failure => exact ⟨rfl, rfl, rfl⟩
    | emptyText => exact ⟨rfl, rfl, rfl⟩
    | badJson => exact ⟨rfl, rfl, rfl⟩
  · intro p s log a cU iU t hG hE hU hR
    have hends := handleAction_ok_ended_report p s log a t cU iU hG
    refine ⟨by rw [hends.1, hE], by rw [hends.2, hR], ?_, ?_, ?_⟩
    · rw [handleAction_ok_sceneCalls p s log a t cU iU hG]
      simp [hU]
    · rw [handleAction_ok_imageCalls p s log a t cU iU hG]
      simp [hU, hE]
    · intro now
      exact saveEffect_no_report p now _ _ (by rw [hends.2, hR])

/-- Witness for C10: the retry fallback of a failed upstream call, fed
through a concrete ready-state turn, ends nothing and calls nothing. -/
theorem degraded_turn_consequences_witness :
    TurnUpstream.isDegraded .failure = true
    ∧ (generateSimulationTurn .failure).getField "isEnded" = some (.bool false)
    ∧ actionBlocked readyState.simState "重试" = false
    ∧ (handleAction pPhys readyState emptyLog "重试"
        (.ok ⟨"与导师的连接不稳定，请重试。", ["重试"], false, false, none⟩)
        .failure .failure).1.simState.isEnded = false :=
  ⟨rfl,
   (degraded_turn_consequences.1 .failure rfl).1,
   by decide,
   (degraded_turn_consequences.2 pPhys readyState emptyLog "重试" .failure .failure
     ⟨"与导师的连接不稳定，请重试。", ["重试"], false, false, none⟩
     (by decide) rfl rfl rfl).1⟩

/- ------------------------------------------------------------------
   Trace lemmas
   ------------------------------------------------------------------ -/

/-- Unfolding a run one event at a time. -/
theorem run_cons (p : SimProps) (sl : ViewState × CallLog) (e : Event)
    (es : List Event) :
    run p sl (e :: es) = run p (step p sl e) es := rfl

/-- The completion check never touches `simState`, `visualStyle`, or the
image log. -/
theorem saveEffect_frame (p : SimProps) (now : Nat) (s : ViewState) (log : CallLog) :
    (saveEffect p now s log).1.simState = s.simState
    ∧ (saveEffect p now s log).1.visualStyle = s.visualStyle
    ∧ (saveEffect p now s log).2.imageCalls = log.imageCalls := by
  unfold saveEffect
  cases hr : s.simState.report <;>
    cases hc : s.simState.isEnded && !s.reportSaved <;> simp [hc]

/-- One step preserves the post-choice SCHEMATIC configuration: the
style stays SCHEMATIC, the choice gate stays down, and no image call is
logged. -/
theorem step_schematic_inv (p : SimProps) (sl : ViewState × CallLog) (e : Event)
    (h1 : sl.1.visualStyle = some VisualStyle.SCHEMATIC)
    (h2 : sl.1.simState.waitingForVisualChoice = false) :
    (step p sl e).1.visualStyle = some VisualStyle.SCHEMATIC
    ∧ (step p sl e).1.simState.waitingForVisualChoice = false
    ∧ (step p sl e).2.imageCalls = sl.2.imageCalls := by
  cases e with
  | action a t u i =>
    exact ⟨by rw [show (step p sl (.action a t u i)) = handleAction p sl.1 sl.2 a t u i from rfl,
             handleAction_visualStyle]; exact h1,
           handleAction_waiting_false p sl.1 sl.2 a t u i h2,
           handleAction_schematic_imageCalls p sl.1 sl.2 a t u i h1⟩
  | visualChoice style i =>
    have hs : step p sl (.visualChoice style i) = sl := by
      simp [step, h2]
    rw [hs]
    exact ⟨h1, h2, rfl⟩
  | saveCheck now =>
    have h := saveEffect_frame p now sl.1 sl.2
    exact ⟨by rw [show (step p sl (.saveCheck now)) = saveEffect p now sl.1 sl.2 from rfl,
             h.2.1]; exact h1,
           by rw [show (step p sl (.saveCheck now)) = saveEffect p now sl.1 sl.2 from rfl,
             h.1]; exact h2,
           h.2.2⟩

/-- Whole-run invariant: once the style is SCHEMATIC and the choice gate
is down, every continuation keeps the style SCHEMATIC and logs no image
call. -/
theorem run_schematic_inv (p : SimProps) :
    ∀ (es : List Event) (sl : ViewState × CallLog),
    sl.1.visualStyle = some VisualStyle.SCHEMATIC →
    sl.1.simState.waitingForVisualChoice = false →
    (run p sl es).1.visualStyle = some VisualStyle.SCHEMATIC
    ∧ (run p sl es).1.simState.waitingForVisualChoice = false
    ∧ (run p sl es).2.imageCalls = sl.2.imageCalls := by
  intro es
  induction es with
  | nil => intro sl h1 h2; exact ⟨h1, h2, rfl⟩
  | cons e rest ih =>
    intro sl h1 h2
    have hstep := step_schematic_inv p sl e h1 h2
    have hrest := ih (step p sl e) hstep.1 hstep.2.1
    exact ⟨by rw [run_cons]; exact hrest.1,
           by rw [run_cons]; exact hrest.2.1,
           by rw [run_cons, hrest.2.2, hstep.2.2]⟩

/-- Picking SCHEMATIC while the gate is up sets the style, clears the
gate, and makes no generator call. -/
theorem choice_schematic_step (p : SimProps) (s : ViewState) (log : CallLog)
    (iU : ImageUpstream) (hw : s.simState.waitingForVisualChoice = true) :
    (step p (s, log) (.visualChoice .SCHEMATIC iU)).1.visualStyle
      = some VisualStyle.SCHEMATIC
    ∧ (step p (s, log) (.visualChoice .SCHEMATIC iU)).1.simState.waitingForVisualChoice
      = false
    ∧ (step p (s, log) (.visualChoice .SCHEMATIC iU)).2 = log := by
  simp [step, hw, handleVisualChoice]

/- ------------------------------------------------------------------
   C5 : sticky SCHEMATIC mode
   ------------------------------------------------------------------ -/

/-- C5: once `ChooseVisualization(SCHEMATIC)` fires (while the choice
gate is up), no later event of the run — user actions with arbitrary
turn results, further choice attempts, completion checks — ever logs a
`generateImage` invocation, and the choice is never re-evaluated: the
style stays SCHEMATIC for the rest of the session. -/
theorem schematic_mode_sticky (p : SimProps) (s : ViewState) (log : CallLog)
    (iU : ImageUpstream) (es : List Event)
    (hw : s.simState.waitingForVisualChoice = true) :
    (run p (step p (s, log) (.visualChoice .SCHEMATIC iU)) es).2.imageCalls
      = log.imageCalls
    ∧ (run p (step p (s, log) (.visualChoice .SCHEMATIC iU)) es).1.visualStyle
      = some VisualStyle.SCHEMATIC := by
  have hc := choice_schematic_step p s log iU hw
  have hinv := run_schematic_inv p es (step p (s, log) (.visualChoice .SCHEMATIC iU))
    hc.1 hc.2.1
  exact ⟨by rw [hinv.2.2, hc.2.2], hinv.1⟩

/-- The state of a scientific run right after initialization, still
awaiting the visualization choice. -/
def awaitingChoiceState : ViewState :=
  ⟨⟨"小球静止在斜面上", none, ["推小球"], [⟨.model, "小球静止在斜面上"⟩],
    false, false, true, false, none, some cfgA⟩,
   none, "", false, false⟩

/-- Witness for C5: from a concrete awaiting-choice state, choosing
SCHEMATIC and then playing a visual-updating turn logs no image call. -/
theorem schematic_mode_sticky_witness :
    awaitingChoiceState.simState.waitingForVisualChoice = true
    ∧ (run pPhys
        (step pPhys (awaitingChoiceState, emptyLog)
          (.visualChoice .SCHEMATIC .failure))
        [.action "推小球" (.ok turnA) (.ok cfgA) .failure]).2.imageCalls
      = emptyLog.imageCalls :=
  ⟨rfl,
   (schematic_mode_sticky pPhys awaitingChoiceState emptyLog .failure
     [.action "推小球" (.ok turnA) (.ok cfgA) .failure] rfl).1⟩

/- ------------------------------------------------------------------
   C3 : idempotent completion
   ------------------------------------------------------------------ -/

/-- Any number of further completion checks after the `reportSaved` ref
is raised leave state and log untouched. -/
theorem run_saveChecks_saved (p : SimProps) :
    ∀ (ns : List Nat) (sl : ViewState × CallLog),
    sl.1.reportSaved = true →
    run p sl (ns.map Event.saveCheck) = sl := by
  intro ns
  induction ns with
  | nil => intro sl _; rfl
  | cons n rest ih =>
    intro sl h
    have hstep : step p sl (.saveCheck n) = sl := by
      show saveEffect p n sl.1 sl.2 = sl
      rw [saveEffect_saved p n sl.1 sl.2 h]
    rw [List.map_cons, run_cons, hstep]
    exact ih sl h

/-- C3: once the run has ended with a non-null report and the guard ref
is still unset, any non-empty sequence of completion-check runs appends
exactly one `SavedRecord` (built by the first check) to the archive
calls, and raises the guard — `onSaveRecord` is invoked exactly once no
matter how many times the check logic re-runs. -/
theorem report_saved_exactly_once (p : SimProps) (s : ViewState) (log : CallLog)
    (rep : AnalysisReport) (n : Nat) (ns : List Nat)
    (hE : s.simState.isEnded = true) (hR : s.simState.report = some rep)
    (hS : s.reportSaved = false) :
    (run p (s, log) ((n :: ns).map Event.saveCheck)).2.saveCalls
      = log.saveCalls ++ [mkSavedRecord p n s.simState rep]
    ∧ (run p (s, log) ((n :: ns).map Event.saveCheck)).1.reportSaved = true := by
  have hfirst : step p (s, log) (.saveCheck n)
      = ({ s with reportSaved := true },
         { log with saveCalls := log.saveCalls ++ [mkSavedRecord p n s.simState rep] }) := by
    show saveEffect p n s log = _
    unfold saveEffect
    rw [hR]
    simp [hE, hS]
  have hrest := run_saveChecks_saved p ns
    ({ s with reportSaved := true },
     { log with saveCalls := log.saveCalls ++ [mkSavedRecord p n s.simState rep] })
    rfl
  rw [List.map_cons, run_cons, hfirst, hrest]
  exact ⟨rfl, rfl⟩

/-- A concrete ended state with a pending (not yet saved) report. -/
def endedState : ViewState :=
  ⟨⟨"实验结束", none, [], [⟨.model, "小球静止在斜面上"⟩, ⟨.user, "推小球"⟩,
      ⟨.model, "实验结束"⟩],
    false, false, false, true, some sampleReport, some cfgA⟩,
   some .SCHEMATIC, "", true, false⟩

/-- Witness for C3: three consecutive completion checks on a concrete
ended state save exactly one record. -/
theorem report_saved_exactly_once_witness :
    endedState.simState.isEnded = true
    ∧ endedState.simState.report = some sampleReport
    ∧ endedState.reportSaved = false
    ∧ (run pPhys (endedState, emptyLog)
        ([7, 8, 9].map Event.saveCheck)).2.saveCalls
      = emptyLog.saveCalls ++ [mkSavedRecord pPhys 7 endedState.simState sampleReport] :=
  ⟨rfl, rfl, rfl,
   (report_saved_exactly_once pPhys endedState emptyLog sampleReport 7 [8, 9]
     rfl rfl rfl).1⟩

/- ------------------------------------------------------------------
   C2 : scientific-scenario initialization
   ------------------------------------------------------------------ -/

/-- Pair form of `choice_schematic_step`, for states produced by other
transitions. -/
theorem choice_schematic_step_pair (p : SimProps) (sl : ViewState × CallLog)
    (iU : ImageUpstream) (hw : sl.1.simState.waitingForVisualChoice = true) :
    (step p sl (.visualChoice .SCHEMATIC iU)).1.visualStyle
      = some VisualStyle.SCHEMATIC
    ∧ (step p sl (.visualChoice .SCHEMATIC iU)).1.simState.waitingForVisualChoice
      = false
    ∧ (step p sl (.visualChoice .SCHEMATIC iU)).2 = sl.2 := by
  simp [step, hw, handleVisualChoice]

/-- C2 counterexample: a scientific initialization (PHYSICS) makes its
`generateSceneConfiguration(title, initialContext, null)` call already
during `Initialize`, while the session is still awaiting the user's
visualization choice — refuting "no visual generation is started before
the user's ChooseVisualization call" (and the later SCHEMATIC pick makes
no call of its own). -/
theorem scientific_init_scene_before_choice_cex :
    (startSimulation pPhys emptyLog (.ok turnA) (.ok cfgA) .failure).1.simState.waitingForVisualChoice
      = true
    ∧ (startSimulation pPhys emptyLog (.ok turnA) (.ok cfgA) .failure).2.sceneCalls
      = [("斜面实验", "一个小球静止在斜面上", none)] := by
  constructor <;> decide

/-- C2 (amended): for a scientific scenario kind, a successful
`Initialize` raises the choice gate and starts no image generation, but
it does already issue exactly one `generateSceneConfiguration(topic,
initialContext, null)` call (seeded with null, in parallel with the
first turn); the subsequent `ChooseVisualization(SCHEMATIC)` then makes
no further generator call, clears `waitingForVisualChoice`, and sets the
sticky SCHEMATIC style — so the whole prefix contains exactly the one
null-seeded scene call. -/
theorem scientific_init_policy (p : SimProps) (log : CallLog) (t : TurnResult)
    (cU : SceneUpstream) (iU iU2 : ImageUpstream)
    (hSci : isScientificMode p.type = true) :
    (startSimulation p log (.ok t) cU iU).1.simState.waitingForVisualChoice = true
    ∧ (startSimulation p log (.ok t) cU iU).2.imageCalls = log.imageCalls
    ∧ (startSimulation p log (.ok t) cU iU).2.sceneCalls
        = log.sceneCalls ++ [(p.title, p.initialContext, none)]
    ∧ (step p (startSimulation p log (.ok t) cU iU)
        (.visualChoice .SCHEMATIC iU2)).2
        = (startSimulation p log (.ok t) cU iU).2
    ∧ (step p (startSimulation p log (.ok t) cU iU)
        (.visualChoice .SCHEMATIC iU2)).1.simState.waitingForVisualChoice = false
    ∧ (step p (startSimulation p log (.ok t) cU iU)
        (.visualChoice .SCHEMATIC iU2)).1.visualStyle
        = some VisualStyle.SCHEMATIC := by
  have hw : (startSimulation p log (.ok t) cU iU).1.simState.waitingForVisualChoice
      = true := by
    unfold startSimulation
    simp [hSci]
  have hc := choice_schematic_step_pair p (startSimulation p log (.ok t) cU iU)
    iU2 hw
  refine ⟨hw, ?_, ?_, hc.2.2, hc.2.1, hc.1⟩
  · unfold startSimulation
    simp [hSci]
  · unfold startSimulation
    simp [hSci]

/-- Witness for C2 at the concrete PHYSICS initialization. -/
theorem scientific_init_policy_witness :
    isScientificMode pPhys.type = true
    ∧ (startSimulation pPhys emptyLog (.ok turnA) (.ok cfgA) .failure).2.sceneCalls
      = emptyLog.sceneCalls ++ [(pPhys.title, pPhys.initialContext, none)] :=
  ⟨rfl,
   (scientific_init_policy pPhys emptyLog turnA (.ok cfgA) .failure .failure
     rfl).2.2.1⟩
